import Mathlib

/-!
A shallow embedding of the Perforce REST gateway (`nodejs-api/server.js`) and
of the composite sensitive-change scan of the MCP tool adapter, together with
theorems settling the specification claims about error mapping, response
envelopes, defaults, counts and the scan pipeline.

Conventions of the embedding:
* JavaScript `null`/`undefined` string fields become `Option String`.
* The child-process run is abstracted by `ExecOutcome` (normal exit with the
  two streams, or a failure with a message covering non-zero exit, timeout and
  spawn errors); `executeP4Command` maps it to a `CommandResult` exactly as the
  `try`/`catch` in the source does.
* Each Express route becomes a function from its (already parsed) request
  parameters and an executor `exec : String → CommandResult` to a `HandlerRun`
  recording the backend commands that were issued and the HTTP reply.
-/

namespace P4Api

/-!
String primitives.  The JavaScript string operations used by the source
(`trim`, `split`, `join`, `includes`, `startsWith`, `toLowerCase`,
`parseInt`) are modelled by structurally recursive functions over the
character list of a `String`, so that every definition evaluates by
reduction on concrete inputs.
-/

/-- `s.trim()` on a character list: strip leading and trailing whitespace. -/
def trimChars (cs : List Char) : List Char :=
  ((cs.dropWhile Char.isWhitespace).reverse.dropWhile Char.isWhitespace).reverse

/-- JavaScript `s.trim()`. -/
def jsTrim (s : String) : String :=
  ⟨trimChars s.data⟩

/-- Split a character list at every occurrence of the character `c`
(the list of fields, like `s.split(c)` with a one-character separator). -/
def splitOnChar (c : Char) : List Char → List (List Char)
  | [] => [[]]
  | x :: xs =>
    let r := splitOnChar c xs
    if x = c then [] :: r
    else
      match r with
      | [] => [[x]]
      | y :: ys => (x :: y) :: ys

/-- JavaScript `s.split('\n')`. -/
def jsLines (s : String) : List String :=
  (splitOnChar (Char.ofNat 10) s.data).map fun cs => ⟨cs⟩

/-- Whether `pre` is a prefix of `text` (character-wise). -/
def isPrefixList : List Char → List Char → Bool
  | [], _ => true
  | _ :: _, [] => false
  | p :: ps, c :: cs => p = c && isPrefixList ps cs

/-- Whether `pat` occurs as a contiguous sublist of `text` at any position. -/
def containsList (pat : List Char) : List Char → Bool
  | [] => isPrefixList pat []
  | c :: cs => isPrefixList pat (c :: cs) || containsList pat cs

/-- Fuel-driven splitter at every occurrence of the separator `sep`
(leftmost, non-overlapping, like `s.split(sep)`); the fuel bounds the
recursion and `splitOnList` supplies enough for it never to run out. -/
def splitOnListAux (sep : List Char) : Nat → List Char → List (List Char)
  | _, [] => [[]]
  | 0, text => [text]
  | n + 1, c :: cs =>
    if isPrefixList sep (c :: cs) then
      [] :: splitOnListAux sep n (cs.drop (sep.length - 1))
    else
      match splitOnListAux sep n cs with
      | [] => [[c]]
      | y :: ys => (c :: y) :: ys

/-- JavaScript `s.split(sep)` for a non-empty separator. -/
def splitOnList (sep text : List Char) : List (List Char) :=
  splitOnListAux sep text.length text

/-- JavaScript `parts.join(sep)`. -/
def joinWithList (sep : List Char) : List (List Char) → List Char
  | [] => []
  | [x] => x
  | x :: y :: ys => x ++ sep ++ joinWithList sep (y :: ys)

/-- Value of a (non-empty, all-digit) character list read in base 10. -/
def digitsToNat (acc : Nat) : List Char → Nat
  | [] => acc
  | c :: cs => digitsToNat (acc * 10 + (c.toNat - 48)) cs

/-- JavaScript `s.toLowerCase()` (ASCII range). -/
def jsToLower (s : String) : String :=
  ⟨s.data.map Char.toLower⟩

/-- `CommandResult` as produced by `executeP4Command` in `server.js`:
`{ success, output, error }` where on success `output` is the trimmed stdout
and `error` is `null`, and on failure `output` is `null` and `error` is the
caught message. -/
structure CommandResult where
  success : Bool
  output : Option String
  error : Option String
  deriving Repr, DecidableEq

/-- The terminal outcome of the child process started by `execAsync`:
either a normal exit carrying the stdout and stderr texts, or a failure
(non-zero exit, timeout, or spawn error) carrying the error message. -/
inductive ExecOutcome where
  | exited (stdout : String) (stderr : String)
  | failed (message : String)
  deriving Repr, DecidableEq

/-- `executeP4Command` from `server.js` lines 56-87: on normal exit it returns
`{success: true, output: stdout.trim(), error: null}` (stderr is only logged);
in the `catch` branch it returns `{success: false, output: null,
error: error.message}`.  The function is total: every outcome yields a
`CommandResult`, mirroring that the executor never throws past its boundary. -/
def executeP4Command : ExecOutcome → CommandResult
  | .exited stdout _ => { success := true, output := some (jsTrim stdout), error := none }
  | .failed message => { success := false, output := none, error := some message }

/-- JavaScript `a || b` for an optional string `a` and default `b`:
`undefined` and the empty string are falsy, any other string is kept. -/
def jsOrStr (a : Option String) (b : String) : String :=
  match a with
  | some v => if v = "" then b else v
  | none => b

/-- JavaScript `a || false` for an optional boolean body field. -/
def jsOrFalse (a : Option Bool) : Bool :=
  a.getD false

/-- The count used by the listing endpoints:
`output.split('\n').filter(line => line.trim()).length`. -/
def countNonBlank (s : String) : Nat :=
  ((jsLines s).filter (fun line => jsTrim line ≠ "")).length

/-- One entry of `errors.array()` in the validation-failure reply:
the offending field and the `withMessage` text of its failed check. -/
structure ValidationError where
  field : String
  message : String
  deriving Repr, DecidableEq

/-- The integer literals accepted by the `isInt` check on a query/path
parameter: an optional sign followed by one or more digits, evaluated to the
signed value. -/
def parsedInt (s : String) : Option Int :=
  match s.data with
  | '-' :: rest =>
    if rest ≠ [] ∧ rest.all Char.isDigit then some (-(digitsToNat 0 rest : Int))
    else none
  | '+' :: rest =>
    if rest ≠ [] ∧ rest.all Char.isDigit then some (digitsToNat 0 rest)
    else none
  | cs =>
    if cs ≠ [] ∧ cs.all Char.isDigit then some (digitsToNat 0 cs)
    else none

/-- `query(f).optional().isString()`: a single-valued query parameter is
always a string, so a present value passes and an absent one is skipped. -/
def optStringCheck (_field _message : String) (_v : Option String) :
    Option ValidationError :=
  none

/-- `query(f).optional().isInt({min, max})`: absent is skipped; a present
value must be an integer literal with `lo ≤ value ≤ hi`. -/
def optIntRangeCheck (field message : String) (lo hi : Int)
    (v : Option String) : Option ValidationError :=
  match v with
  | none => none
  | some s =>
    match parsedInt s with
    | some n => if lo ≤ n ∧ n ≤ hi then none else some ⟨field, message⟩
    | none => some ⟨field, message⟩

/-- `query(f).optional().isInt()` with no range. -/
def optIntCheck (field message : String) (v : Option String) :
    Option ValidationError :=
  match v with
  | none => none
  | some s => if (parsedInt s).isSome then none else some ⟨field, message⟩

/-- `query(f).notEmpty().isString()`: the parameter must be present and
non-empty (the violation carries the chain's `withMessage` text). -/
def requiredStringCheck (field message : String) (v : Option String) :
    Option ValidationError :=
  match v with
  | none => some ⟨field, message⟩
  | some s => if s = "" then some ⟨field, message⟩ else none

/-- `query(f).optional().isIn(allowed)`. -/
def optEnumCheck (field message : String) (allowed : List String)
    (v : Option String) : Option ValidationError :=
  match v with
  | none => none
  | some s => if s ∈ allowed then none else some ⟨field, message⟩

/-- `param(f).isInt()`: a path parameter is always present; it must be an
integer literal. -/
def requiredIntCheck (field message : String) (v : String) :
    Option ValidationError :=
  if (parsedInt v).isSome then none else some ⟨field, message⟩

/-- `body(f).optional().isString()` on a JSON body field modelled as an
optional string: a present string passes, absent is skipped. -/
def optBodyStringCheck (_field _message : String) (_v : Option String) :
    Option ValidationError :=
  none

/-- `body(f).optional().isBoolean()` on a JSON body field modelled as an
optional boolean: a present boolean passes, absent is skipped. -/
def optBodyBoolCheck (_field _message : String) (_v : Option Bool) :
    Option ValidationError :=
  none

/-- Validation chains of `GET /api/files` (`server.js` lines 160-163). -/
def filesValidate (path max : Option String) : List ValidationError :=
  (optStringCheck "path" "Path must be a string" path).toList ++
    (optIntRangeCheck "max" "Max must be between 1 and 1000" 1 1000 max).toList

/-- Validation chains of `GET /api/files/content` (lines 200-203). -/
def contentValidate (path revision : Option String) : List ValidationError :=
  (requiredStringCheck "path" "Path is required and must be a string" path).toList ++
    (optIntCheck "revision" "Revision must be a number" revision).toList

/-- Validation chains of `GET /api/files/history` (lines 237-240). -/
def historyValidate (path max : Option String) : List ValidationError :=
  (requiredStringCheck "path" "Path is required and must be a string" path).toList ++
    (optIntRangeCheck "max" "Max must be between 1 and 100" 1 100 max).toList

/-- Validation chains of `GET /api/changes` (lines 273-277). -/
def changesValidate (max status user : Option String) : List ValidationError :=
  (optIntRangeCheck "max" "Max must be between 1 and 100" 1 100 max).toList ++
    (optEnumCheck "status" "Status must be pending or submitted"
      ["pending", "submitted"] status).toList ++
    (optStringCheck "user" "User must be a string" user).toList

/-- Validation chain of `GET /api/changes/:changeId` (lines 315-317). -/
def changeDetailValidate (changeId : String) : List ValidationError :=
  (requiredIntCheck "changeId" "Change ID must be a number" changeId).toList

/-- Validation chains of `POST /api/sync` (lines 379-382). -/
def syncValidate (path : Option String) (force : Option Bool) :
    List ValidationError :=
  (optBodyStringCheck "path" "Path must be a string" path).toList ++
    (optBodyBoolCheck "force" "Force must be a boolean" force).toList

/-- The `data` payloads produced by the `/api` handlers, one constructor per
response shape in `server.js`. -/
inductive Payload where
  | info (entries : List (String × String))
  | files (rawOutput : String) (count : Nat) (path : String)
  | content (path revision content : String)
  | history (path history : String)
  | changes (rawOutput : String) (count : Nat)
  | changeDetail (changeId : Int) (rawOutput : String)
  | users (rawOutput : String) (count : Nat)
  | sync (path : String) (rawOutput : Option String) (forced : Bool)
  deriving Repr, DecidableEq

/-- A JSON reply of an `/api` route: the HTTP status (200 for a bare
`res.json`) and the envelope fields, each `none` when the handler's object
literal omits the key. -/
structure Response where
  status : Nat
  success : Option Bool
  message : Option String
  data : Option Payload
  error : Option String
  errors : Option (List ValidationError)
  deriving Repr, DecidableEq

/-- One handled request: the backend commands the route issued (empty when
validation rejected the request before the executor ran) and the reply. -/
structure HandlerRun where
  commandsRun : List String
  response : Response
  deriving Repr, DecidableEq

/-- The 400 reply of `handleValidationErrors` (lines 90-100):
`{success: false, message: 'Validation errors', errors: [...]}`. -/
def validationErrorResponse (errs : List ValidationError) : Response :=
  { status := 400, success := some false, message := some "Validation errors",
    data := none, error := none, errors := some errs }

/-- A success reply `res.json({success: true, data})`. -/
def okResponse (payload : Payload) : Response :=
  { status := 200, success := some true, message := none,
    data := some payload, error := none, errors := none }

/-- A failure reply `res.status(st).json({success: false, message, error})`. -/
def failResponse (st : Nat) (msg : String) (err : Option String) : Response :=
  { status := st, success := some false, message := some msg,
    data := none, error := err, errors := none }

/-- The app-level 404 handler (lines 450-456); `availableEndpoints` is a
string constant and is not part of the envelope model. -/
def notFoundResponse : Response :=
  { status := 404, success := some false, message := some "Endpoint not found",
    data := none, error := none, errors := none }

/-- `p4 info` argument string used by `/api/info` and `/health`. -/
def infoCommand : String := "info"

/-- Command built by `/api/files` from the effective path and max:
`files -m ${maxFiles} "${depotPath}"`. -/
def filesCommand (depotPath maxFiles : String) : String :=
  "files -m " ++ maxFiles ++ " \"" ++ depotPath ++ "\""

/-- The revision suffix of `/api/files/content`:
`req.query.revision ? '#' + revision : ''` (the empty string is falsy). -/
def revisionSuffix (revision : Option String) : String :=
  match revision with
  | some r => if r = "" then "" else "#" ++ r
  | none => ""

/-- Command built by `/api/files/content`: `print -q "${filePath}${revision}"`. -/
def contentCommand (filePath revision : String) : String :=
  "print -q \"" ++ filePath ++ revision ++ "\""

/-- Command built by `/api/files/history`: `filelog -m ${maxChanges} "${filePath}"`. -/
def historyCommand (filePath maxChanges : String) : String :=
  "filelog -m " ++ maxChanges ++ " \"" ++ filePath ++ "\""

/-- `if (v) command += flag + v` on an optional string value. -/
def appendIfTruthy (cmd flag : String) (v : Option String) : String :=
  match v with
  | some s => if s = "" then cmd else cmd ++ flag ++ s
  | none => cmd

/-- Command built by `/api/changes`: `changes -m ${maxChanges}` with
`-s status` and `-u user` appended when those values are truthy. -/
def changesCommand (maxChanges : String) (status user : Option String) : String :=
  appendIfTruthy (appendIfTruthy ("changes -m " ++ maxChanges) " -s " status)
    " -u " user

/-- Command built by `/api/changes/:changeId`: `describe -s ${changeId}`. -/
def changeDetailCommand (changeId : String) : String :=
  "describe -s " ++ changeId

/-- `p4 users` argument string used by `/api/users`. -/
def usersCommand : String := "users"

/-- Command built by `/api/sync` from the effective path and force flag:
`sync` plus ` -f` when forced, then ` "${path}"`. -/
def syncCommand (path : String) (force : Bool) : String :=
  "sync" ++ (if force then " -f" else "") ++ " \"" ++ path ++ "\""

/-- One line of the `/api/info` parser: `line.split(': ')` destructured into
the first piece and the rest; a key/value entry is recorded only when the
rest is non-empty, with the tail re-joined on `': '` and both sides trimmed. -/
def parseInfoLine (line : String) : Option (String × String) :=
  match splitOnList ": ".data line.data with
  | [] => none
  | [_] => none
  | key :: rest =>
    some (⟨trimChars key⟩, ⟨trimChars (joinWithList ": ".data rest)⟩)

/-- The `info` object of `/api/info` (lines 137-143), as the list of entries
in line order (a duplicate key would overwrite in the JS object). -/
def parseInfo (output : String) : List (String × String) :=
  (jsLines output).filterMap parseInfoLine

/-- `GET /api/info` (lines 124-157).  No validation; on command failure a 500
envelope, otherwise the parsed key/value mapping.  On success the executor
always supplies `some` output; `getD ""` mirrors the direct field access. -/
def infoRoute (exec : String → CommandResult) : HandlerRun :=
  let result := exec infoCommand
  if result.success then
    { commandsRun := [infoCommand],
      response := okResponse (.info (parseInfo (result.output.getD ""))) }
  else
    { commandsRun := [infoCommand],
      response := failResponse 500 "Failed to get server info" result.error }

/-- `GET /api/files` (lines 160-197): validation, defaults
(`path || '//depot/...'`, `max || 100`), the `files` command, then a 500
envelope on failure or `{rawOutput, count, path}` on success. -/
def filesRoute (exec : String → CommandResult) (path max : Option String) :
    HandlerRun :=
  let errs := filesValidate path max
  if errs.isEmpty then
    let depotPath := jsOrStr path "//depot/..."
    let maxFiles := jsOrStr max "100"
    let cmd := filesCommand depotPath maxFiles
    let result := exec cmd
    if result.success then
      let out := result.output.getD ""
      { commandsRun := [cmd],
        response := okResponse (.files out (countNonBlank out) depotPath) }
    else
      { commandsRun := [cmd],
        response := failResponse 500 "Failed to list files" result.error }
  else
    { commandsRun := [], response := validationErrorResponse errs }

/-- `GET /api/files/content` (lines 200-234): validation, the optional
`#revision` suffix, the `print -q` command, then a 404 envelope on failure or
`{path, revision, content}` on success. -/
def contentRoute (exec : String → CommandResult) (path revision : Option String) :
    HandlerRun :=
  let errs := contentValidate path revision
  if errs.isEmpty then
    let filePath := path.getD ""
    let rev := revisionSuffix revision
    let cmd := contentCommand filePath rev
    let result := exec cmd
    if result.success then
      { commandsRun := [cmd],
        response := okResponse (.content filePath rev (result.output.getD "")) }
    else
      { commandsRun := [cmd],
        response := failResponse 404 "File not found or cannot be accessed" result.error }
  else
    { commandsRun := [], response := validationErrorResponse errs }

/-- `GET /api/files/history` (lines 237-270): validation, default
`max || 10`, the `filelog` command, then a 404 envelope on failure or
`{path, history}` on success. -/
def historyRoute (exec : String → CommandResult) (path max : Option String) :
    HandlerRun :=
  let errs := historyValidate path max
  if errs.isEmpty then
    let filePath := path.getD ""
    let maxChanges := jsOrStr max "10"
    let cmd := historyCommand filePath maxChanges
    let result := exec cmd
    if result.success then
      { commandsRun := [cmd],
        response := okResponse (.history filePath (result.output.getD "")) }
    else
      { commandsRun := [cmd],
        response := failResponse 404 "File history not found" result.error }
  else
    { commandsRun := [], response := validationErrorResponse errs }

/-- `GET /api/changes` (lines 273-312): validation, default `max || 20`,
optional `-s`/`-u` flags, then a 500 envelope on failure or
`{rawOutput, count}` on success. -/
def changesRoute (exec : String → CommandResult)
    (max status user : Option String) : HandlerRun :=
  let errs := changesValidate max status user
  if errs.isEmpty then
    let cmd := changesCommand (jsOrStr max "20") status user
    let result := exec cmd
    if result.success then
      let out := result.output.getD ""
      { commandsRun := [cmd],
        response := okResponse (.changes out (countNonBlank out)) }
    else
      { commandsRun := [cmd],
        response := failResponse 500 "Failed to list changes" result.error }
  else
    { commandsRun := [], response := validationErrorResponse errs }

/-- `parseInt` on a validated integer literal. -/
def jsParseInt (s : String) : Int :=
  (parsedInt s).getD 0

/-- `GET /api/changes/:changeId` (lines 315-346): validation of the path
parameter, the `describe -s` command, then a 404 envelope on failure or
`{changeId: parseInt(changeId), rawOutput}` on success. -/
def changeDetailRoute (exec : String → CommandResult) (changeId : String) :
    HandlerRun :=
  let errs := changeDetailValidate changeId
  if errs.isEmpty then
    let cmd := changeDetailCommand changeId
    let result := exec cmd
    if result.success then
      { commandsRun := [cmd],
        response := okResponse (.changeDetail (jsParseInt changeId) (result.output.getD "")) }
    else
      { commandsRun := [cmd],
        response := failResponse 404 "Change not found" result.error }
  else
    { commandsRun := [], response := validationErrorResponse errs }

/-- `GET /api/users` (lines 349-376): no validation, the `users` command,
then a 500 envelope on failure or `{rawOutput, count}` on success. -/
def usersRoute (exec : String → CommandResult) : HandlerRun :=
  let result := exec usersCommand
  if result.success then
    let out := result.output.getD ""
    { commandsRun := [usersCommand],
      response := okResponse (.users out (countNonBlank out)) }
  else
    { commandsRun := [usersCommand],
      response := failResponse 500 "Failed to list users" result.error }

/-- `POST /api/sync` (lines 379-409): validation, defaults
(`path || '//depot/...'`, `force || false`), the `sync` command, then —
with no branch on `result.success` — the unconditional
`{success: true, data: {path, rawOutput: result.output, forced}}` reply. -/
def syncRoute (exec : String → CommandResult) (path : Option String)
    (force : Option Bool) : HandlerRun :=
  let errs := syncValidate path force
  if errs.isEmpty then
    let effPath := jsOrStr path "//depot/..."
    let effForce := jsOrFalse force
    let cmd := syncCommand effPath effForce
    let result := exec cmd
    { commandsRun := [cmd],
      response := okResponse (.sync effPath result.output effForce) }
  else
    { commandsRun := [], response := validationErrorResponse errs }

/-- The JSON body of a `/health` reply: `status`/`timestamp` always,
`perforce`/`version` on the 200 branch, `error` on the 503 branch. -/
structure HealthBody where
  status : String
  timestamp : String
  perforce : Option String
  version : Option String
  error : Option String
  deriving Repr, DecidableEq

/-- A `/health` reply: HTTP status and body. -/
structure HealthReply where
  httpStatus : Nat
  body : HealthBody
  deriving Repr, DecidableEq

/-- `GET /health` (lines 105-121) as a function of what `await
executeP4Command('info')` did: if the promise resolved with `result`, a 200
body with `status: 'healthy'` and `perforce` switching on `result.success`;
if it rejected (the `catch` branch), a 503 body with `status: 'unhealthy'`. -/
def healthHandler (now : String) : Except String CommandResult → HealthReply
  | .ok result =>
    ⟨200, { status := "healthy", timestamp := now,
            perforce := some (if result.success then "connected" else "disconnected"),
            version := some "1.0.0", error := none }⟩
  | .error e =>
    ⟨503, { status := "unhealthy", timestamp := now,
            perforce := none, version := none, error := some e }⟩

/-- The `/health` route against the real executor and a backend oracle
`backend` giving the child-process outcome of each command string: the route
runs `executeP4Command('info')` — the same `infoCommand` as `/api/info` —
and, `executeP4Command` being a total function, the awaited call always
resolves, so the handler always receives `.ok`. -/
def healthRoute (now : String) (backend : String → ExecOutcome) : HealthReply :=
  healthHandler now (.ok (executeP4Command (backend infoCommand)))

end P4Api

namespace McpScan

/-- JavaScript `s.includes(sub)`: `sub` occurs as a contiguous substring of
`s` (the empty string is always included). -/
def jsIncludes (s sub : String) : Bool :=
  P4Api.containsList sub.data s.data

/-- The `^Change (\d+)` match of `analyzeSensitiveChanges`: a line starting
with `Change ` followed by at least one digit yields the value of the maximal
leading digit run (what `parseInt(match[1])` returns). -/
def matchChangeLine (line : String) : Option Nat :=
  if P4Api.isPrefixList "Change ".data line.data then
    let digits := (line.data.drop 7).takeWhile Char.isDigit
    if digits = [] then none else some (P4Api.digitsToNat 0 digits)
  else none

/-- Change-number extraction from the raw `/api/changes` listing: split on
newlines, keep the lines whose trim is non-empty, and match each original
line against the line-start pattern. -/
def extractChangeNumbers (raw : String) : List Nat :=
  ((P4Api.jsLines raw).filter
    (fun line => P4Api.jsTrim line ≠ "")).filterMap matchChangeLine

/-- The keywords of one change detail: `keywords.filter(k =>
changeDetails.toLowerCase().includes(k.toLowerCase()))`. -/
def foundKeywords (changeDetails : String) (keywords : List String) :
    List String :=
  keywords.filter (fun k =>
    jsIncludes (P4Api.jsToLower changeDetails) (P4Api.jsToLower k))

/-- The default `keywords` argument of `analyzeSensitiveChanges`. -/
def defaultKeywords : List String :=
  ["password", "secret", "key", "token", "credential", "auth"]

/-- Whether one fetched change is flagged: the per-change detail request
succeeded and at least one keyword was found (a failed detail request is
reported as a warning and never counted). -/
def changeFlagged (details : Nat → Except String String) (keywords : List String)
    (changeId : Nat) : Bool :=
  match details changeId with
  | .ok d => !(foundKeywords d keywords).isEmpty
  | .error _ => false

/-- The change ids the scan flags, in listing order: each extracted id whose
detail text contains some keyword. -/
def flaggedChanges (changesRaw : String) (details : Nat → Except String String)
    (keywords : List String) : List Nat :=
  (extractChangeNumbers changesRaw).filter (changeFlagged details keywords)

/-- `foundSensitiveChanges`, the summary count of the scan report. -/
def foundSensitiveCount (changesRaw : String)
    (details : Nat → Except String String) (keywords : List String) : Nat :=
  (flaggedChanges changesRaw details keywords).length

end McpScan

open P4Api McpScan

/-- C3: `executeP4Command` is total (it never throws past its boundary: every
process outcome yields a `CommandResult`), a normal exit yields
`{succeeded: true, output: trimmed stdout, error: absent}`, any failure yields
`{succeeded: false, output: absent, error: the failure message}`, and on every
terminal outcome exactly one of `output`/`error` is populated, with
`succeeded = false` exactly when `error` is set. -/
theorem executeP4Command_total_and_exclusive :
    (∀ stdout stderr, executeP4Command (.exited stdout stderr) =
      { success := true, output := some (jsTrim stdout), error := none }) ∧
    (∀ message, executeP4Command (.failed message) =
      { success := false, output := none, error := some message }) ∧
    (∀ o, ((executeP4Command o).output.isSome ↔ (executeP4Command o).error.isNone) ∧
      ((executeP4Command o).success = false ↔ (executeP4Command o).error.isSome)) := by
  refine ⟨fun _ _ => rfl, fun _ => rfl, fun o => ?_⟩
  cases o <;> simp [executeP4Command]

/-- C2: for every sync request (any path, any force value) whose backend
command fails, `POST /api/sync` still replies 200 with `success: true` and a
data payload carrying the raw backend output (the `CommandResult`'s `output`
field) — never an error envelope. -/
theorem sync_replies_success_even_on_failure
    (exec : String → CommandResult) (path : Option String) (force : Option Bool)
    (_hfail : (exec (syncCommand (jsOrStr path "//depot/...")
      (jsOrFalse force))).success = false) :
    (syncRoute exec path force).response.status = 200 ∧
    (syncRoute exec path force).response.success = some true ∧
    (syncRoute exec path force).response.data =
      some (.sync (jsOrStr path "//depot/...")
        (exec (syncCommand (jsOrStr path "//depot/...") (jsOrFalse force))).output
        (jsOrFalse force)) := by
  refine ⟨?_, ?_, ?_⟩ <;>
    simp [syncRoute, syncValidate, optBodyStringCheck, optBodyBoolCheck, okResponse]

/-- Closed instance of `sync_replies_success_even_on_failure` at a backend
whose sync command fails. -/
theorem sync_replies_success_even_on_failure_witness :
    (syncRoute (fun _ => ⟨false, none, some "p4 sync failed"⟩) none none).response.status = 200 ∧
    (syncRoute (fun _ => ⟨false, none, some "p4 sync failed"⟩) none none).response.success = some true ∧
    (syncRoute (fun _ => ⟨false, none, some "p4 sync failed"⟩) none none).response.data =
      some (.sync "//depot/..." none false) :=
  sync_replies_success_even_on_failure
    (fun _ => ⟨false, none, some "p4 sync failed"⟩) none none rfl

/-- C10: whenever the executor call of `/health` resolves — which it always
does, `executeP4Command` being total — the endpoint replies HTTP 200 with
`status: 'healthy'` regardless of whether the backend command succeeded; only
the `perforce` field switches between `connected` and `disconnected`.  The
503 `unhealthy` branch exists in `healthHandler` but is unreachable through
`healthRoute`. -/
theorem health_always_healthy_503_unreachable
    (now : String) (backend : String → ExecOutcome) :
    (healthRoute now backend).httpStatus = 200 ∧
    (healthRoute now backend).body.status = "healthy" ∧
    (healthRoute now backend).body.perforce =
      some (if (executeP4Command (backend infoCommand)).success
        then "connected" else "disconnected") ∧
    (healthRoute now backend).httpStatus ≠ 503 ∧
    (∀ e, (healthHandler now (.error e)).httpStatus = 503) := by
  refine ⟨rfl, rfl, rfl, by simp [healthRoute, healthHandler], fun e => rfl⟩

/-- C4 counterexample: with the backend's `info` command failing, the
`/health` body still has `status = "healthy"` (never `"degraded"`), refuting
that the status field is derived from whether the command succeeded. -/
theorem health_status_not_derived_counterexample :
    (healthRoute "2024-01-01T00:00:00.000Z"
      (fun _ => .failed "connect: connection refused")).body.status = "healthy" ∧
    ¬(healthRoute "2024-01-01T00:00:00.000Z"
      (fun _ => .failed "connect: connection refused")).body.status = "degraded" := by
  exact ⟨rfl, by decide⟩

/-- C4 amended: `/health` runs the same `info` command as `/api/info` and
replies with the body `{status, timestamp, perforce, version}` in which the
`perforce` field — not `status` — is derived from whether that command
succeeded (`connected` vs `disconnected`, equivalently: `perforce` says
connected exactly when `/api/info` against the same backend replies 200),
while `status` is `healthy` whenever the executor call resolves, independent
of the main info endpoint's error-shaping rule. -/
theorem health_perforce_tracks_info_success
    (now : String) (backend : String → ExecOutcome) :
    (healthRoute now backend).body =
      { status := "healthy", timestamp := now,
        perforce := some (if (executeP4Command (backend infoCommand)).success
          then "connected" else "disconnected"),
        version := some "1.0.0", error := none } ∧
    ((healthRoute now backend).body.perforce = some "connected" ↔
      (infoRoute (fun c => executeP4Command (backend c))).response.status = 200) := by
  constructor
  · rfl
  · cases h : (executeP4Command (backend infoCommand)).success <;>
      simp [healthRoute, healthHandler, infoRoute, h, okResponse, failResponse]

/-- C1: whenever the backend command of an operation fails, the
resource-oriented lookups (`/api/files/content`, `/api/files/history`,
`/api/changes/:changeId`) reply with the 404 error envelope and the
collection/action operations (`/api/info`, `/api/files`, `/api/changes`,
`/api/users`) reply with the 500 error envelope. -/
theorem failure_maps_404_for_lookups_500_for_collections
    (exec : String → CommandResult) :
    (∀ path revision, contentValidate path revision = [] →
      (exec (contentCommand (path.getD "") (revisionSuffix revision))).success = false →
      (contentRoute exec path revision).response =
        failResponse 404 "File not found or cannot be accessed"
          (exec (contentCommand (path.getD "") (revisionSuffix revision))).error) ∧
    (∀ path max, historyValidate path max = [] →
      (exec (historyCommand (path.getD "") (jsOrStr max "10"))).success = false →
      (historyRoute exec path max).response =
        failResponse 404 "File history not found"
          (exec (historyCommand (path.getD "") (jsOrStr max "10"))).error) ∧
    (∀ changeId, changeDetailValidate changeId = [] →
      (exec (changeDetailCommand changeId)).success = false →
      (changeDetailRoute exec changeId).response =
        failResponse 404 "Change not found" (exec (changeDetailCommand changeId)).error) ∧
    ((exec infoCommand).success = false →
      (infoRoute exec).response =
        failResponse 500 "Failed to get server info" (exec infoCommand).error) ∧
    (∀ path max, filesValidate path max = [] →
      (exec (filesCommand (jsOrStr path "//depot/...") (jsOrStr max "100"))).success = false →
      (filesRoute exec path max).response =
        failResponse 500 "Failed to list files"
          (exec (filesCommand (jsOrStr path "//depot/...") (jsOrStr max "100"))).error) ∧
    (∀ max status user, changesValidate max status user = [] →
      (exec (changesCommand (jsOrStr max "20") status user)).success = false →
      (changesRoute exec max status user).response =
        failResponse 500 "Failed to list changes"
          (exec (changesCommand (jsOrStr max "20") status user)).error) ∧
    ((exec usersCommand).success = false →
      (usersRoute exec).response =
        failResponse 500 "Failed to list users" (exec usersCommand).error) := by
  refine ⟨fun path revision hv hf => ?_, fun path max hv hf => ?_,
    fun changeId hv hf => ?_, fun hf => ?_, fun path max hv hf => ?_,
    fun max status user hv hf => ?_, fun hf => ?_⟩ <;>
    simp_all [contentRoute, historyRoute, changeDetailRoute, infoRoute,
      filesRoute, changesRoute, usersRoute]

/-- Closed instance of `failure_maps_404_for_lookups_500_for_collections`:
a lookup of `//depot/missing.txt` against a backend whose commands all fail
yields the 404 envelope. -/
theorem failure_maps_404_for_lookups_500_for_collections_witness :
    (contentRoute (fun _ => ⟨false, none, some "no such file(s)"⟩)
      (some "//depot/missing.txt") none).response =
      failResponse 404 "File not found or cannot be accessed" (some "no such file(s)") :=
  (failure_maps_404_for_lookups_500_for_collections
    (fun _ => ⟨false, none, some "no such file(s)"⟩)).1
    (some "//depot/missing.txt") none rfl rfl

/-- C5: on every request violating a declared constraint, the route answers
with the 400 `Validation errors` envelope carrying the complete, non-empty
violation list and issues no backend command; validation collects every
violation rather than stopping at the first (a request with both a missing
required path and a malformed revision reports both). -/
theorem validation_rejects_with_all_errors_before_any_command
    (exec : String → CommandResult) :
    (∀ path max, filesValidate path max ≠ [] →
      (filesRoute exec path max).response =
        validationErrorResponse (filesValidate path max) ∧
      (filesRoute exec path max).commandsRun = []) ∧
    (∀ path revision, contentValidate path revision ≠ [] →
      (contentRoute exec path revision).response =
        validationErrorResponse (contentValidate path revision) ∧
      (contentRoute exec path revision).commandsRun = []) ∧
    (∀ path max, historyValidate path max ≠ [] →
      (historyRoute exec path max).response =
        validationErrorResponse (historyValidate path max) ∧
      (historyRoute exec path max).commandsRun = []) ∧
    (∀ max status user, changesValidate max status user ≠ [] →
      (changesRoute exec max status user).response =
        validationErrorResponse (changesValidate max status user) ∧
      (changesRoute exec max status user).commandsRun = []) ∧
    (∀ changeId, changeDetailValidate changeId ≠ [] →
      (changeDetailRoute exec changeId).response =
        validationErrorResponse (changeDetailValidate changeId) ∧
      (changeDetailRoute exec changeId).commandsRun = []) ∧
    (contentValidate none (some "abc") =
      [⟨"path", "Path is required and must be a string"⟩,
       ⟨"revision", "Revision must be a number"⟩]) := by
  refine ⟨fun path max h => ?_, fun path revision h => ?_, fun path max h => ?_,
    fun max status user h => ?_, fun changeId h => ?_, by decide⟩ <;>
    constructor <;>
      simp_all [filesRoute, contentRoute, historyRoute, changesRoute,
        changeDetailRoute, List.isEmpty_eq_true]

/-- Closed instance of
`validation_rejects_with_all_errors_before_any_command`: a file listing with
`max=2000` is rejected with the single `max` violation and no command runs. -/
theorem validation_rejects_witness :
    (filesRoute (fun _ => ⟨true, some "", none⟩) none (some "2000")).response =
      validationErrorResponse (filesValidate none (some "2000")) ∧
    (filesRoute (fun _ => ⟨true, some "", none⟩) none (some "2000")).commandsRun = [] :=
  (validation_rejects_with_all_errors_before_any_command
    (fun _ => ⟨true, some "", none⟩)).1 none (some "2000") (by decide)

/-- C6: for every successful listing reply (file list, change list, user
list), the `count` field of the data payload equals the number of non-blank
lines (non-empty after trimming) of the `rawOutput` text returned alongside
it. -/
theorem listing_count_equals_nonblank_lines (exec : String → CommandResult) :
    (∀ path max raw cnt p,
      (filesRoute exec path max).response.data = some (.files raw cnt p) →
      cnt = countNonBlank raw) ∧
    (∀ max status user raw cnt,
      (changesRoute exec max status user).response.data = some (.changes raw cnt) →
      cnt = countNonBlank raw) ∧
    (∀ raw cnt,
      (usersRoute exec).response.data = some (.users raw cnt) →
      cnt = countNonBlank raw) := by
  refine ⟨fun path max raw cnt p h => ?_, fun max status user raw cnt h => ?_,
    fun raw cnt h => ?_⟩
  · simp only [filesRoute] at h
    split at h
    · split at h
      · simp only [okResponse, Option.some.injEq, Payload.files.injEq] at h
        obtain ⟨h1, h2, -⟩ := h
        rw [← h1, ← h2]
      · simp [failResponse] at h
    · simp [validationErrorResponse] at h
  · simp only [changesRoute] at h
    split at h
    · split at h
      · simp only [okResponse, Option.some.injEq, Payload.changes.injEq] at h
        obtain ⟨h1, h2⟩ := h
        rw [← h1, ← h2]
      · simp [failResponse] at h
    · simp [validationErrorResponse] at h
  · simp only [usersRoute] at h
    split at h
    · simp only [okResponse, Option.some.injEq, Payload.users.injEq] at h
      obtain ⟨h1, h2⟩ := h
      rw [← h1, ← h2]
    · simp [failResponse] at h

/-- Closed instance of `listing_count_equals_nonblank_lines` at a backend
listing three files with an interior blank line. -/
theorem listing_count_equals_nonblank_lines_witness :
    (3 : Nat) = countNonBlank "//depot/a#1\n//depot/b#2\n\n//depot/c#1" :=
  (listing_count_equals_nonblank_lines
    (fun _ => ⟨true, some "//depot/a#1\n//depot/b#2\n\n//depot/c#1", none⟩)).1
    none none "//depot/a#1\n//depot/b#2\n\n//depot/c#1" 3 "//depot/..." (by decide)

/-- C7: omitted optional parameters take the documented defaults after
validation, used in the constructed command and echoed in the reply: file
list `max` defaults to 100 and `path` to `//depot/...` (echoed as
`data.path`), change list `max` to 20, file history `max` to 10, and sync
`force` to `false`, while `force = true` adds ` -f` to the command and is
echoed in the `forced` field. -/
theorem defaults_applied_in_command_and_echo (exec : String → CommandResult) :
    ((filesRoute exec none none).commandsRun = ["files -m 100 \"//depot/...\""]) ∧
    ((exec (filesCommand "//depot/..." "100")).success = true →
      ∃ raw cnt, (filesRoute exec none none).response.data =
        some (.files raw cnt "//depot/...")) ∧
    ((changesRoute exec none none none).commandsRun = ["changes -m 20"]) ∧
    (∀ p, p ≠ "" →
      (historyRoute exec (some p) none).commandsRun = [historyCommand p "10"]) ∧
    ((syncRoute exec none none).commandsRun = ["sync \"//depot/...\""]) ∧
    ((syncRoute exec none none).response.data =
      some (.sync "//depot/..." (exec (syncCommand "//depot/..." false)).output false)) ∧
    ((syncRoute exec none (some true)).commandsRun = ["sync -f \"//depot/...\""]) ∧
    ((syncRoute exec none (some true)).response.data =
      some (.sync "//depot/..." (exec (syncCommand "//depot/..." true)).output true)) := by
  refine ⟨?_, fun h => ?_, ?_, fun p hp => ?_, rfl, rfl, rfl, rfl⟩
  · simp [filesRoute, filesValidate, optStringCheck, optIntRangeCheck,
      Option.toList, jsOrStr, filesCommand,
      apply_ite HandlerRun.commandsRun]
  · exact ⟨(exec (filesCommand "//depot/..." "100")).output.getD "",
      countNonBlank ((exec (filesCommand "//depot/..." "100")).output.getD ""), by
        simp [filesRoute, filesValidate, optStringCheck, optIntRangeCheck,
          jsOrStr, h, okResponse]⟩
  · simp [changesRoute, changesValidate, optIntRangeCheck, optEnumCheck,
      optStringCheck, Option.toList, jsOrStr, changesCommand, appendIfTruthy,
      apply_ite HandlerRun.commandsRun]
  · simp [historyRoute, historyValidate, requiredStringCheck, optIntRangeCheck,
      Option.toList, jsOrStr, hp, apply_ite HandlerRun.commandsRun]

/-- Closed instance of `defaults_applied_in_command_and_echo`: against a
succeeding backend the defaulted file listing echoes the wildcard path, and a
history request for a concrete file defaults `max` to 10. -/
theorem defaults_applied_witness :
    (∃ raw cnt,
      (filesRoute (fun _ => ⟨true, some "//depot/a#1", none⟩) none none).response.data =
        some (.files raw cnt "//depot/...")) ∧
    (historyRoute (fun _ => ⟨true, some "//depot/a#1", none⟩)
      (some "//depot/a.txt") none).commandsRun = ["filelog -m 10 \"//depot/a.txt\""] :=
  ⟨(defaults_applied_in_command_and_echo
      (fun _ => ⟨true, some "//depot/a#1", none⟩)).2.1 rfl,
   (defaults_applied_in_command_and_echo
      (fun _ => ⟨true, some "//depot/a#1", none⟩)).2.2.2.1 "//depot/a.txt" (by decide)⟩

/-- Raw `/api/changes` listing of the C8 scenario: three submitted changes,
as fetched with `maxChanges = 3`. -/
def scanScenarioRaw : String :=
  "Change 103 on 2024/05/03 by carol@ws 'tweak release notes'\n" ++
  "Change 102 on 2024/05/02 by bob@ws 'update config'\n" ++
  "Change 101 on 2024/05/01 by alice@ws 'initial import'"

/-- Change details of the C8 scenario: only change 102's description
contains "password", and no other default keyword occurs in any detail. -/
def scanScenarioDetails : Nat → Except String String := fun id =>
  if id = 103 then
    .ok "Change 103 by carol@ws on 2024/05/03\n\n\ttweak release notes\n"
  else if id = 102 then
    .ok "Change 102 by bob@ws on 2024/05/02\n\n\tstore the admin password in config\n"
  else if id = 101 then
    .ok "Change 101 by alice@ws on 2024/05/01\n\n\tinitial import\n"
  else .error "Change unknown."

/-- C8: the composite sensitive-scan tool extracts change identifiers from
the raw change-listing text via the line-start `Change <digits>` pattern and
flags a change exactly when its fetched detail text contains some configured
keyword as a case-insensitive substring; in the concrete scenario — three
listed changes (`maxChanges = 3`), default keywords, only one detail
mentioning "password" — exactly that change is flagged and the summary count
is 1. -/
theorem scan_flags_iff_keyword_in_detail :
    (∀ (raw : String) (details : Nat → Except String String)
      (keywords : List String) (id : Nat),
      id ∈ flaggedChanges raw details keywords ↔
        (id ∈ extractChangeNumbers raw ∧
          ∃ d, details id = .ok d ∧ ∃ k ∈ keywords,
            jsIncludes (P4Api.jsToLower d) (P4Api.jsToLower k) = true)) ∧
    (flaggedChanges scanScenarioRaw scanScenarioDetails defaultKeywords = [102] ∧
      foundSensitiveCount scanScenarioRaw scanScenarioDetails defaultKeywords = 1) := by
  refine ⟨fun raw details keywords id => ?_, by decide, by decide⟩
  simp only [flaggedChanges, List.mem_filter]
  refine and_congr_right fun _ => ?_
  rw [changeFlagged]
  cases hd : details id with
  | ok d =>
    simp [foundKeywords, Bool.not_eq_true', List.isEmpty_eq_false_iff_exists_mem,
      List.mem_filter]
  | error e => simp

/-- C9: for every envelope any `/api` handler can produce — including the
validation rejection and the unmatched-route reply — `success: true` holds
exactly when a `data` payload is present (so a `success: false` envelope
never carries `data`). -/
theorem envelope_has_data_iff_success (exec : String → CommandResult) :
    ((infoRoute exec).response.success = some true ↔
      (infoRoute exec).response.data.isSome) ∧
    (∀ path max, (filesRoute exec path max).response.success = some true ↔
      (filesRoute exec path max).response.data.isSome) ∧
    (∀ path revision, (contentRoute exec path revision).response.success = some true ↔
      (contentRoute exec path revision).response.data.isSome) ∧
    (∀ path max, (historyRoute exec path max).response.success = some true ↔
      (historyRoute exec path max).response.data.isSome) ∧
    (∀ max status user, (changesRoute exec max status user).response.success = some true ↔
      (changesRoute exec max status user).response.data.isSome) ∧
    (∀ changeId, (changeDetailRoute exec changeId).response.success = some true ↔
      (changeDetailRoute exec changeId).response.data.isSome) ∧
    ((usersRoute exec).response.success = some true ↔
      (usersRoute exec).response.data.isSome) ∧
    (∀ path force, (syncRoute exec path force).response.success = some true ↔
      (syncRoute exec path force).response.data.isSome) ∧
    (notFoundResponse.success = some false ∧ notFoundResponse.data = none) := by
  refine ⟨?_, fun path max => ?_, fun path revision => ?_, fun path max => ?_,
    fun max status user => ?_, fun changeId => ?_, ?_, fun path force => ?_,
    by decide⟩ <;>
    (simp only [infoRoute, filesRoute, contentRoute, historyRoute, changesRoute,
       changeDetailRoute, usersRoute, syncRoute];
     repeat' split) <;>
    simp [okResponse, failResponse, validationErrorResponse]
